import Mathlib

/-!
Shallow embedding of `src/index.js`, a single-endpoint security-remediation
dispatcher (Express app).  The program receives a JSON request
`{action, target, severity, ...}` on `POST /execute` and routes it to one of
three remote clients (Cloudflare firewall, Jira ticketing, Slack webhook), or
rejects it.  We model JavaScript values, the three client functions
(`blockIPCloudflare`, `createJiraTicket`, `alertSRESlack`), and the router
(`app.post("/execute")` handler) as pure Lean functions.  Outbound network
calls are modelled by oracles: functions from the outbound request body to the
remote response (wrapped in `Except String` so that transport-level failures
appear as thrown errors).  Each run returns an `Outcome` recording the list of
outbound calls made, the console-error log events emitted, and the HTTP
response (status code plus JSON body).
-/

namespace Remediation

/-- JavaScript values, as far as this program needs them: `undef` stands for
JavaScript `undefined` (an absent field). -/
inductive Js where
  | undef : Js
  | null : Js
  | bool : Bool → Js
  | num : Int → Js
  | str : String → Js
  | arr : List Js → Js
  | obj : List (String × Js) → Js
deriving Repr

/-- JavaScript truthiness of a value (`undefined`, `null`, `false`, `0` and
`""` are falsy; objects and arrays are always truthy). -/
def jsTruthy : Js → Bool
  | .undef => false
  | .null => false
  | .bool b => b
  | .num n => n != 0
  | .str s => s != ""
  | .arr _ => true
  | .obj _ => true

/-- Truthiness of an optional string (absent fields and environment variables
are `undefined`, hence falsy; the empty string is falsy too). -/
def strTruthy : Option String → Bool
  | none => false
  | some s => s != ""

/-- JavaScript `x || d` for an optional string field: falls back to the
default when the field is absent or falsy. -/
def orDefaultS (o : Option String) (d : String) : String :=
  match o with
  | none => d
  | some s => if s == "" then d else s

mutual
/-- Template-literal rendering of a JavaScript value, as in a JS
interpolation.  Arrays render as their comma-joined elements
(with `undefined` and `null` elements rendering empty), objects as
the generic object tag. -/
def templateStr : Js → String
  | .undef => "undefined"
  | .null => "null"
  | .bool b => if b then "true" else "false"
  | .num n => toString n
  | .str s => s
  | .arr xs => String.intercalate "," (templateList xs)
  | .obj _ => "[object Object]"

/-- Array elements under template rendering: `undefined` and `null` elements
render empty. -/
def templateList : List Js → List String
  | [] => []
  | .undef :: xs => "" :: templateList xs
  | .null :: xs => "" :: templateList xs
  | x :: xs => templateStr x :: templateList xs
end

/-- Template-literal rendering of a value that may be `undefined`
(e.g. the result of `JSON.stringify` applied to `undefined`). -/
def templateOpt (o : Option String) : String :=
  o.getD "undefined"

/-- JSON string escaping for `JSON.stringify`: quote, backslash and the
common control characters. -/
def jsonEscapeChar (c : Char) : String :=
  if c = '"' then "\\\""
  else if c = '\\' then "\\\\"
  else if c = '\n' then "\\n"
  else if c = '\r' then "\\r"
  else if c = '\t' then "\\t"
  else String.singleton c

/-- A JSON-quoted string literal. -/
def jsonQuote (s : String) : String :=
  "\"" ++ String.join (s.toList.map jsonEscapeChar) ++ "\""

mutual
/-- `JSON.stringify(v, null, 2)` at nesting indent `ind`: pretty JSON with
two-space indentation. `undefined` stringifies to `undefined` (`none`). -/
def stringifyAt (ind : String) : Js → Option String
  | .undef => none
  | .null => some "null"
  | .bool b => some (if b then "true" else "false")
  | .num n => some (toString n)
  | .str s => some (jsonQuote s)
  | .arr xs =>
    match xs with
    | [] => some "[]"
    | x :: rest =>
      some ("[\n" ++
        String.intercalate ",\n" (stringifyList (ind ++ "  ") (x :: rest)) ++
        "\n" ++ ind ++ "]")
  | .obj fs =>
    match fs with
    | [] => some "\x7b\x7d"
    | f :: rest =>
      let lines := stringifyFields (ind ++ "  ") (f :: rest)
      match lines with
      | [] => some "\x7b\x7d"
      | _ => some ("\x7b\n" ++ String.intercalate ",\n" lines ++
                   "\n" ++ ind ++ "\x7d")

/-- Array elements under `JSON.stringify`: `undefined` elements render as
`null`. -/
def stringifyList (ind : String) : List Js → List String
  | [] => []
  | x :: xs => (ind ++ (stringifyAt ind x).getD "null") :: stringifyList ind xs

/-- Object fields under `JSON.stringify`: fields with `undefined` values are
omitted. -/
def stringifyFields (ind : String) : List (String × Js) → List String
  | [] => []
  | (k, v) :: fs =>
    match stringifyAt ind v with
    | none => stringifyFields ind fs
    | some sv => (ind ++ jsonQuote k ++ ": " ++ sv) :: stringifyFields ind fs
end

/-- `JSON.stringify(v, null, 2)` at top level. -/
def Js.stringify2 (v : Js) : Option String := stringifyAt "" v

/-! ## Configuration and request model -/

/-- The process environment variables the program reads (`process.env.*`);
`none` models an unset variable. -/
structure Env where
  JIRA_BASE : Option String
  JIRA_MAIL : Option String
  JIRA_API : Option String
  JIRA_PROJECT : Option String
  SLACK_WEBHOOK_URL : Option String
  CF_ZONE_ID : Option String
  CF_API_TOKEN : Option String

/-- The JSON body of a `POST /execute` request.  The router destructures
`action`, `target` and `severity`; `alertSRESlack` additionally reads
`threat`.  `extra` carries any other body fields, which the program never
reads.  String-valued fields are `Option String` (`none` = absent); `target`
may be any JSON value (`Js.undef` = absent). -/
structure Request where
  action : Option String
  target : Js
  severity : Option String
  threat : Option String
  extra : List (String × Js)

/-! ## Remote API messages -/

/-- Body of the outbound Cloudflare firewall call built by
`blockIPCloudflare`: fixed `mode`, `configuration.target`, `notes`; the
request target goes in `configuration.value`. -/
structure CfBody where
  mode : String
  configurationTarget : String
  configurationValue : Js
  notes : String

/-- One element of the `errors` array of a Cloudflare response body. -/
structure CfError where
  message : Option String

/-- The `result` object of a Cloudflare response body; the program reads only
its `id` field (`none` models `id` being absent). -/
structure CfResult where
  id : Option String

/-- Parsed Cloudflare response body (`await response.json()`): the program
reads `success`, `errors` and `result`.  `errors = none` / `result = none`
model those fields being absent (or null). -/
structure CfResponse where
  success : Bool
  errors : Option (List CfError)
  result : Option CfResult

/-- Payload of the outbound Jira issue-creation call (the `fields` object
built by `createJiraTicket`). -/
structure JiraPayload where
  projectKey : String
  summary : String
  description : String
  issuetype : String
  priority : String
  labels : List String

/-- Jira fetch result: transport-level `res.ok` plus the parsed response
body's `key` field (`none` = absent). -/
structure JiraResp where
  ok : Bool
  key : Option String

/-- The Slack message built by `alertSRESlack`: header `text`, the `mrkdwn`
texts of the two `section` blocks, and the context block's timestamp text. -/
structure SlackMessage where
  text : String
  sectionOneText : String
  sectionTwoText : String
  contextText : String

/-- A Slack webhook fetch result; `alertSRESlack` never reads any of it. -/
structure SlackResp where
  status : Nat
  ok : Bool
  body : Js

/-! ## Effects: outbound calls, logs, HTTP outcome -/

/-- One outbound network call (a `fetch`), with the body the program sent. -/
inductive Call where
  | cf : CfBody → Call
  | jira : JiraPayload → Call
  | slack : SlackMessage → Call

/-- One `console.error` log event, with the data the program logged. -/
inductive LogEvent where
  | cfError : CfResponse → LogEvent
  | jiraError : JiraResp → LogEvent
  | remediationError : String → LogEvent

/-- The JSON body of the HTTP response built by the router.  Fields that a
branch does not set are `none` (absent from the serialized JSON; JavaScript
`undefined` values are likewise dropped by `res.json`). -/
structure ResBody where
  status : String
  message : Option String := none
  action_taken : Option String := none
  action : Option String := none
  target : Option Js := none
  method : Option String := none
  cloudflare_rule_id : Option String := none
  jira_ticket : Option String := none
  executed_at : Option String := none

/-- The observable result of one `POST /execute` request: outbound calls
made (in order), log events emitted (in order), HTTP status and JSON body. -/
structure Outcome where
  calls : List Call
  logs : List LogEvent
  status : Nat
  body : ResBody

/-- Remote-endpoint behaviour: one oracle per remote API, mapping the
outbound body to the remote response.  `Except.error e` models a
transport-level failure (the `fetch`, or `res.json()`, throwing with message
`e`). -/
structure Oracle where
  cf : CfBody → Except String CfResponse
  jira : JiraPayload → Except String JiraResp
  slack : SlackMessage → Except String SlackResp

/-- Result of running one client handler: the calls it made, the log events
it emitted, and its return value or thrown error. -/
def HandlerResult (α : Type) : Type := List Call × List LogEvent × Except String α

/-! ## The three client functions -/

/-- `createJiraTicket({summary, description, priority})`: checks the four
Jira environment variables, builds the issue payload, posts it, checks
`res.ok`, and returns `data.key`.  The base64 Basic-auth header carries no
information the claims need, so it is not materialized here. -/
def createJiraTicket (env : Env) (jira : JiraPayload → Except String JiraResp)
    (summary description priority : String) : HandlerResult (Option String) :=
  if !(strTruthy env.JIRA_BASE) || !(strTruthy env.JIRA_MAIL) ||
     !(strTruthy env.JIRA_API) || !(strTruthy env.JIRA_PROJECT) then
    ([], [], .error "Jira environment variables missing")
  else
    let payload : JiraPayload :=
      { projectKey := env.JIRA_PROJECT.getD ""
        summary := summary
        description := description
        issuetype := "Task"
        priority := priority
        labels := ["threatpilot", "automated"] }
    match jira payload with
    | .error e => ([Call.jira payload], [], .error e)
    | .ok resp =>
      if !resp.ok then
        ([Call.jira payload], [LogEvent.jiraError resp],
         .error "Failed to create Jira ticket")
      else
        ([Call.jira payload], [], .ok resp.key)

/-- The Slack message object built by `alertSRESlack` from the request body
(`payload`) and the current time.  `payload.threat || "Unknown"` and
`payload.severity || "Medium"` use JS truthiness; `payload.target || "N/A"`
likewise; `payload.action` has no default. -/
def buildSlackMessage (payload : Request) (now : String) : SlackMessage :=
  { text := "🚨 *Security Alert – ThreatPilot*"
    sectionOneText :=
      ("*Threat:* " ++ orDefaultS payload.threat "Unknown") ++
      ("\n*Severity:* " ++ orDefaultS payload.severity "Medium")
    sectionTwoText :=
      ("*Target:* " ++ (if jsTruthy payload.target then templateStr payload.target else "N/A")) ++
      ("\n*Recommended Action:* " ++
        (match payload.action with
         | none => "undefined"
         | some a => a))
    contextText := "⏱ " ++ now }

/-- `alertSRESlack(payload)`: requires the webhook URL, posts the fixed-format
message, and ignores the response entirely (no `res.ok` or body check). -/
def alertSRESlack (env : Env) (slack : SlackMessage → Except String SlackResp)
    (payload : Request) (now : String) : HandlerResult Unit :=
  if !(strTruthy env.SLACK_WEBHOOK_URL) then
    ([], [], .error "Slack webhook not configured")
  else
    let message := buildSlackMessage payload now
    match slack message with
    | .error e => ([Call.slack message], [], .error e)
    | .ok _ => ([Call.slack message], [], .ok ())

/-- `data.errors?.[0]?.message || "Cloudflare block failed"`: the thrown
error message when the Cloudflare body has `success` false.  Optional
chaining yields `undefined` when `errors` is absent, empty, or its first
element has no `message`; `||` additionally rejects an empty-string
message. -/
def cfErrMsg (data : CfResponse) : String :=
  match (data.errors.bind List.head?).bind CfError.message with
  | none => "Cloudflare block failed"
  | some m => if m == "" then "Cloudflare block failed" else m

/-- The fixed outbound body of the Cloudflare call for a given target. -/
def cfBody (ip : Js) : CfBody :=
  { mode := "block"
    configurationTarget := "ip"
    configurationValue := ip
    notes := "ThreatPilot automated remediation" }

/-- `blockIPCloudflare(ip)`: checks `CF_ZONE_ID` and `CF_API_TOKEN` before any
network call, posts the block rule, and on `success: false` logs the body and
throws `cfErrMsg`; on success returns `data.result` (which may be absent). -/
def blockIPCloudflare (env : Env) (cf : CfBody → Except String CfResponse)
    (ip : Js) : HandlerResult (Option CfResult) :=
  if !(strTruthy env.CF_ZONE_ID) || !(strTruthy env.CF_API_TOKEN) then
    ([], [], .error "Cloudflare env vars missing")
  else
    let body := cfBody ip
    match cf body with
    | .error e => ([Call.cf body], [], .error e)
    | .ok data =>
      if !data.success then
        ([Call.cf body], [LogEvent.cfError data], .error (cfErrMsg data))
      else
        ([Call.cf body], [], .ok data.result)

/-! ## The router -/

/-- The Node error message for dereferencing a property of `undefined`, as
thrown by `rule.id` when `data.result` is absent. -/
def undefinedIdMsg : String :=
  "Cannot read properties of undefined (reading \x27id\x27)"

/-- The router's `catch` block: log the remediation error and answer 500. -/
def errorOutcome (calls : List Call) (logs : List LogEvent) (e : String) :
    Outcome :=
  { calls := calls
    logs := logs ++ [LogEvent.remediationError e]
    status := 500
    body := { status := "error", message := some e } }

/-- JS `toUpperCase()` on one character, for the ASCII action names this
program feeds it. -/
def asciiUpper (c : Char) : Char :=
  if 'a' ≤ c ∧ c ≤ 'z' then Char.ofNat (c.toNat - 32) else c

/-- JS `toUpperCase()` on a string. -/
def jsToUpper (s : String) : String := ⟨s.data.map asciiUpper⟩

/-- JS `replaceAll("_", " ")`: with a one-character pattern this is a
character-wise replacement. -/
def underscoresToSpaces (s : String) : String :=
  ⟨s.data.map fun c => if c = '_' then ' ' else c⟩

/-- The ticket summary built in the ticketing branch:
a fixed prefix plus the action with underscores replaced by spaces,
upper-cased. -/
def ticketSummary (action : String) : String :=
  "[ThreatPilot] " ++ jsToUpper (underscoresToSpaces action)

/-- The ticket description built in the ticketing branch: a template literal
embedding the action, `JSON.stringify(target, null, 2)` and the severity. -/
def ticketDescription (action : String) (target : Js) (severity : String) :
    String :=
  ("Action: " ++ action ++ "\nTarget: ") ++
    templateOpt target.stringify2 ++
    ("\nSeverity: " ++ severity)

/-- The `block_ip` branch: run `blockIPCloudflare` on the target and shape
the success response; `rule.id` throws when the returned rule is absent. -/
def blockIpBranch (env : Env) (cf : CfBody → Except String CfResponse)
    (now : String) (target : Js) : Outcome :=
  match blockIPCloudflare env cf target with
  | (calls, logs, .error e) => errorOutcome calls logs e
  | (calls, logs, .ok none) => errorOutcome calls logs undefinedIdMsg
  | (calls, logs, .ok (some rule)) =>
    { calls := calls
      logs := logs
      status := 200
      body :=
        { status := "success"
          action_taken := some "block_ip"
          target := some target
          method := some "cloudflare_firewall"
          cloudflare_rule_id := rule.id
          message := some ("IP " ++ templateStr target ++ " blocked via Cloudflare")
          executed_at := some now } }

/-- The ticketing branch (`rate_limit_ip` / `add_waf_rule` /
`block_endpoint`): create the Jira ticket and answer `pending_approval`. -/
def ticketingBranch (env : Env) (jira : JiraPayload → Except String JiraResp)
    (act : String) (target : Js) (severity : String) : Outcome :=
  match createJiraTicket env jira (ticketSummary act)
      (ticketDescription act target severity)
      (if severity == "high" then "High" else "Medium") with
  | (calls, logs, .error e) => errorOutcome calls logs e
  | (calls, logs, .ok jiraKey) =>
    { calls := calls
      logs := logs
      status := 200
      body :=
        { status := "pending_approval"
          action := some act
          target := some target
          jira_ticket := jiraKey } }

/-- The `alert_sre` branch: post the Slack message and answer bare success. -/
def alertBranch (env : Env) (slack : SlackMessage → Except String SlackResp)
    (now : String) (req : Request) : Outcome :=
  match alertSRESlack env slack req now with
  | (calls, logs, .error e) => errorOutcome calls logs e
  | (calls, logs, .ok _) =>
    { calls := calls
      logs := logs
      status := 200
      body :=
        { status := "success"
          action_taken := some "alert_sre"
          method := some "slack_notification"
          message := some "SRE alerted via Slack"
          executed_at := some now } }

/-- The `app.post("/execute")` handler: destructure the body (with
`severity = "medium"` as destructuring default), validate `action`, dispatch
on it, and map any thrown error to a logged 500 (`errorOutcome`).  `now` is
the value of `new Date().toISOString()` during the request. -/
def execute (env : Env) (o : Oracle) (now : String) (req : Request) :
    Outcome :=
  let severity := req.severity.getD "medium"
  if !(strTruthy req.action) then
    { calls := [], logs := [], status := 400
      body := { status := "error", message := some "Action is required" } }
  else if req.action == some "block_ip" then
    blockIpBranch env o.cf now req.target
  else if req.action == some "rate_limit_ip" ||
          req.action == some "add_waf_rule" ||
          req.action == some "block_endpoint" then
    ticketingBranch env o.jira (req.action.getD "") req.target severity
  else if req.action == some "alert_sre" then
    alertBranch env o.slack now req
  else
    { calls := [], logs := [], status := 400
      body := { status := "ignored", message := some "Unsupported action" } }

/-! ## Concrete fixtures for closed-form runs -/

/-- A fully configured environment. -/
def envAll : Env :=
  { JIRA_BASE := some "https://jira.example.com"
    JIRA_MAIL := some "sre@example.com"
    JIRA_API := some "jira-token"
    JIRA_PROJECT := some "SEC"
    SLACK_WEBHOOK_URL := some "https://hooks.slack.example/T0/B0"
    CF_ZONE_ID := some "zone-1"
    CF_API_TOKEN := some "cf-token" }

/-- A remote world in which every call succeeds. -/
def oracleHappy : Oracle :=
  { cf := fun _ => .ok { success := true, errors := none,
                         result := some { id := some "cf-rule-1" } }
    jira := fun _ => .ok { ok := true, key := some "SEC-101" }
    slack := fun _ => .ok { status := 200, ok := true, body := .null } }

/-- A request with the given action, target and severity, and no other
fields. -/
def reqOf (a : Option String) (t : Js) (sev : Option String) : Request :=
  { action := a, target := t, severity := sev, threat := none, extra := [] }

/-! ## Dispatch lemmas for the router -/

/-- Requests whose `action` is `"block_ip"` reach the firewall branch. -/
theorem execute_block_ip_eq (env : Env) (o : Oracle) (now : String)
    (req : Request) (ha : req.action = some "block_ip") :
    execute env o now req = blockIpBranch env o.cf now req.target := by
  simp [execute, ha, strTruthy]

/-- Requests whose `action` is one of the three ticketing actions reach the
ticketing branch, with the destructuring default `severity = "medium"`. -/
theorem execute_ticketing_eq (env : Env) (o : Oracle) (now : String)
    (req : Request) (a : String) (ha : req.action = some a)
    (hmem : a = "rate_limit_ip" ∨ a = "add_waf_rule" ∨ a = "block_endpoint") :
    execute env o now req =
      ticketingBranch env o.jira a req.target (req.severity.getD "medium") := by
  rcases hmem with h | h | h <;> subst h <;> simp [execute, ha, strTruthy]

/-- Requests whose `action` is `"alert_sre"` reach the notification branch. -/
theorem execute_alert_eq (env : Env) (o : Oracle) (now : String)
    (req : Request) (ha : req.action = some "alert_sre") :
    execute env o now req = alertBranch env o.slack now req := by
  simp [execute, ha, strTruthy]

/-! ## Branch lemmas -/

/-- Happy-path shape of the firewall branch: configured, remote accepts,
rule object present. -/
theorem blockIpBranch_success (env : Env)
    (cf : CfBody → Except String CfResponse) (now : String) (t : Js)
    (resp : CfResponse) (rule : CfResult)
    (hz : strTruthy env.CF_ZONE_ID = true)
    (htk : strTruthy env.CF_API_TOKEN = true)
    (hcf : cf (cfBody t) = .ok resp) (hs : resp.success = true)
    (hr : resp.result = some rule) :
    blockIpBranch env cf now t =
      { calls := [Call.cf (cfBody t)], logs := [], status := 200
        body :=
          { status := "success"
            action_taken := some "block_ip"
            target := some t
            method := some "cloudflare_firewall"
            cloudflare_rule_id := rule.id
            message := some ("IP " ++ templateStr t ++ " blocked via Cloudflare")
            executed_at := some now } } := by
  simp [blockIpBranch, blockIPCloudflare, hz, htk, hcf, hs, hr]

/-- Missing firewall configuration: the branch throws before any call. -/
theorem blockIpBranch_config_missing (env : Env)
    (cf : CfBody → Except String CfResponse) (now : String) (t : Js)
    (hmiss : strTruthy env.CF_ZONE_ID = false ∨
             strTruthy env.CF_API_TOKEN = false) :
    blockIpBranch env cf now t =
      errorOutcome [] [] "Cloudflare env vars missing" := by
  have h : blockIPCloudflare env cf t =
      ([], [], .error "Cloudflare env vars missing") := by
    unfold blockIPCloudflare
    rcases hmiss with h | h <;> rw [h] <;> simp
  unfold blockIpBranch
  rw [h]

/-- Remote rejection (`success: false`): the branch logs the body and throws
`cfErrMsg`. -/
theorem blockIpBranch_rejected (env : Env)
    (cf : CfBody → Except String CfResponse) (now : String) (t : Js)
    (resp : CfResponse)
    (hz : strTruthy env.CF_ZONE_ID = true)
    (htk : strTruthy env.CF_API_TOKEN = true)
    (hcf : cf (cfBody t) = .ok resp) (hs : resp.success = false) :
    blockIpBranch env cf now t =
      errorOutcome [Call.cf (cfBody t)] [LogEvent.cfError resp]
        (cfErrMsg resp) := by
  have h : blockIPCloudflare env cf t =
      ([Call.cf (cfBody t)], [LogEvent.cfError resp], .error (cfErrMsg resp)) := by
    simp [blockIPCloudflare, hz, htk, hcf, hs]
  unfold blockIpBranch
  rw [h]

/-- Remote success without a `result` object: `rule.id` throws. -/
theorem blockIpBranch_no_result (env : Env)
    (cf : CfBody → Except String CfResponse) (now : String) (t : Js)
    (resp : CfResponse)
    (hz : strTruthy env.CF_ZONE_ID = true)
    (htk : strTruthy env.CF_API_TOKEN = true)
    (hcf : cf (cfBody t) = .ok resp) (hs : resp.success = true)
    (hr : resp.result = none) :
    blockIpBranch env cf now t =
      errorOutcome [Call.cf (cfBody t)] [] undefinedIdMsg := by
  have h : blockIPCloudflare env cf t =
      ([Call.cf (cfBody t)], [], .ok none) := by
    simp [blockIPCloudflare, hz, htk, hcf, hs, hr]
  unfold blockIpBranch
  rw [h]

/-- The Jira issue payload the ticketing branch builds. -/
def jiraPayloadOf (env : Env) (act : String) (t : Js) (severity : String) :
    JiraPayload :=
  { projectKey := env.JIRA_PROJECT.getD ""
    summary := ticketSummary act
    description := ticketDescription act t severity
    issuetype := "Task"
    priority := if severity == "high" then "High" else "Medium"
    labels := ["threatpilot", "automated"] }

/-- With Jira configured, `createJiraTicket` makes exactly one outbound
call, carrying the issue payload, whatever the remote answers. -/
theorem createJiraTicket_calls (env : Env)
    (jira : JiraPayload → Except String JiraResp) (s d p : String)
    (hb : strTruthy env.JIRA_BASE = true)
    (hm : strTruthy env.JIRA_MAIL = true)
    (hapi : strTruthy env.JIRA_API = true)
    (hpr : strTruthy env.JIRA_PROJECT = true) :
    (createJiraTicket env jira s d p).1 =
      [Call.jira
        { projectKey := env.JIRA_PROJECT.getD ""
          summary := s
          description := d
          issuetype := "Task"
          priority := p
          labels := ["threatpilot", "automated"] }] := by
  unfold createJiraTicket
  rw [hb, hm, hapi, hpr]
  simp only [Bool.not_true, Bool.or_self, Bool.false_or, Bool.or_false,
    Bool.false_eq_true, if_false]
  rcases hj : jira
      { projectKey := env.JIRA_PROJECT.getD ""
        summary := s
        description := d
        issuetype := "Task"
        priority := p
        labels := ["threatpilot", "automated"] } with e | resp
  · simp
  · rcases resp with ⟨ok, key⟩
    cases ok <;> simp

/-- With Jira configured, the ticketing branch makes exactly one outbound
call, carrying `jiraPayloadOf`, whatever the remote answers. -/
theorem ticketingBranch_calls (env : Env)
    (jira : JiraPayload → Except String JiraResp) (act : String) (t : Js)
    (severity : String)
    (hb : strTruthy env.JIRA_BASE = true)
    (hm : strTruthy env.JIRA_MAIL = true)
    (hapi : strTruthy env.JIRA_API = true)
    (hpr : strTruthy env.JIRA_PROJECT = true) :
    (ticketingBranch env jira act t severity).calls =
      [Call.jira (jiraPayloadOf env act t severity)] := by
  have hcalls := createJiraTicket_calls env jira (ticketSummary act)
    (ticketDescription act t severity)
    (if severity == "high" then "High" else "Medium") hb hm hapi hpr
  unfold ticketingBranch
  rcases hc : createJiraTicket env jira (ticketSummary act)
      (ticketDescription act t severity)
      (if severity == "high" then "High" else "Medium") with ⟨calls, logs, r⟩
  rw [hc] at hcalls
  rcases r with e | k <;> simp_all [errorOutcome, jiraPayloadOf]

/-- With the webhook configured and the post not throwing, the notification
branch reports bare success. -/
theorem alertBranch_ok (env : Env)
    (slack : SlackMessage → Except String SlackResp) (now : String)
    (req : Request) (r : SlackResp)
    (hw : strTruthy env.SLACK_WEBHOOK_URL = true)
    (hs : slack (buildSlackMessage req now) = .ok r) :
    alertBranch env slack now req =
      { calls := [Call.slack (buildSlackMessage req now)], logs := []
        status := 200
        body :=
          { status := "success"
            action_taken := some "alert_sre"
            method := some "slack_notification"
            message := some "SRE alerted via Slack"
            executed_at := some now } } := by
  simp [alertBranch, alertSRESlack, hw, hs]

/-! ## Claims -/

/-- C1: for every `block_ip` request with both firewall configuration values
present, where the remote firewall call succeeds (body `success` true) and
returns a rule object, the HTTP response is 200 with body status
`"success"`, `action_taken` `"block_ip"`, the request's target echoed back,
`method` `"cloudflare_firewall"`, and `cloudflare_rule_id` equal to the id of
the rule object returned by the remote API. -/
theorem C1_block_ip_success_response (env : Env) (o : Oracle) (now : String)
    (req : Request) (resp : CfResponse) (rule : CfResult)
    (hz : strTruthy env.CF_ZONE_ID = true)
    (htk : strTruthy env.CF_API_TOKEN = true)
    (ha : req.action = some "block_ip")
    (hcf : o.cf (cfBody req.target) = .ok resp)
    (hs : resp.success = true)
    (hr : resp.result = some rule) :
    (execute env o now req).status = 200 ∧
    (execute env o now req).body.status = "success" ∧
    (execute env o now req).body.action_taken = some "block_ip" ∧
    (execute env o now req).body.target = some req.target ∧
    (execute env o now req).body.method = some "cloudflare_firewall" ∧
    (execute env o now req).body.cloudflare_rule_id = rule.id := by
  rw [execute_block_ip_eq env o now req ha,
    blockIpBranch_success env o.cf now req.target resp rule hz htk hcf hs hr]
  exact ⟨rfl, rfl, rfl, rfl, rfl, rfl⟩

/-- Witness for C1 at a concrete request and remote world. -/
theorem C1_block_ip_success_response_witness :
    (execute envAll oracleHappy "2026-10-12T00:00:00.000Z"
        (reqOf (some "block_ip") (.str "203.0.113.7") none)).status = 200 ∧
    (execute envAll oracleHappy "2026-10-12T00:00:00.000Z"
        (reqOf (some "block_ip") (.str "203.0.113.7") none)).body.status = "success" ∧
    (execute envAll oracleHappy "2026-10-12T00:00:00.000Z"
        (reqOf (some "block_ip") (.str "203.0.113.7") none)).body.action_taken = some "block_ip" ∧
    (execute envAll oracleHappy "2026-10-12T00:00:00.000Z"
        (reqOf (some "block_ip") (.str "203.0.113.7") none)).body.target = some (.str "203.0.113.7") ∧
    (execute envAll oracleHappy "2026-10-12T00:00:00.000Z"
        (reqOf (some "block_ip") (.str "203.0.113.7") none)).body.method = some "cloudflare_firewall" ∧
    (execute envAll oracleHappy "2026-10-12T00:00:00.000Z"
        (reqOf (some "block_ip") (.str "203.0.113.7") none)).body.cloudflare_rule_id = some "cf-rule-1" :=
  C1_block_ip_success_response envAll oracleHappy "2026-10-12T00:00:00.000Z"
    (reqOf (some "block_ip") (.str "203.0.113.7") none)
    { success := true, errors := none, result := some { id := some "cf-rule-1" } }
    { id := some "cf-rule-1" } rfl rfl rfl rfl rfl rfl

/-- C4: for every `block_ip` request where either firewall configuration
value is absent (or empty, hence falsy), the handler fails before any
outbound call (the call list is empty) and the HTTP response is 500 with
status `"error"` and the missing-configuration message. -/
theorem C4_block_ip_config_missing (env : Env) (o : Oracle) (now : String)
    (req : Request)
    (ha : req.action = some "block_ip")
    (hmiss : strTruthy env.CF_ZONE_ID = false ∨
             strTruthy env.CF_API_TOKEN = false) :
    (execute env o now req).calls = [] ∧
    (execute env o now req).status = 500 ∧
    (execute env o now req).body.status = "error" ∧
    (execute env o now req).body.message = some "Cloudflare env vars missing" := by
  rw [execute_block_ip_eq env o now req ha,
    blockIpBranch_config_missing env o.cf now req.target hmiss]
  exact ⟨rfl, rfl, rfl, rfl⟩

/-- Witness for C4: zone id unset. -/
theorem C4_block_ip_config_missing_witness :
    (execute { envAll with CF_ZONE_ID := none } oracleHappy "2026-10-12T00:00:00.000Z"
        (reqOf (some "block_ip") (.str "203.0.113.7") none)).calls = [] ∧
    (execute { envAll with CF_ZONE_ID := none } oracleHappy "2026-10-12T00:00:00.000Z"
        (reqOf (some "block_ip") (.str "203.0.113.7") none)).status = 500 ∧
    (execute { envAll with CF_ZONE_ID := none } oracleHappy "2026-10-12T00:00:00.000Z"
        (reqOf (some "block_ip") (.str "203.0.113.7") none)).body.status = "error" ∧
    (execute { envAll with CF_ZONE_ID := none } oracleHappy "2026-10-12T00:00:00.000Z"
        (reqOf (some "block_ip") (.str "203.0.113.7") none)).body.message =
      some "Cloudflare env vars missing" :=
  C4_block_ip_config_missing { envAll with CF_ZONE_ID := none } oracleHappy
    "2026-10-12T00:00:00.000Z" (reqOf (some "block_ip") (.str "203.0.113.7") none)
    rfl (Or.inl rfl)

/-- C5: for every request whose `action` is absent or the empty string, the
response is exactly 400 with body status `"error"` and message
`"Action is required"`, and no handler runs: no outbound call, no log. -/
theorem C5_missing_action (env : Env) (o : Oracle) (now : String)
    (req : Request)
    (ha : req.action = none ∨ req.action = some "") :
    execute env o now req =
      { calls := [], logs := [], status := 400
        body := { status := "error", message := some "Action is required" } } := by
  rcases ha with h | h <;> simp [execute, h, strTruthy]

/-- Witness for C5 at a request with no action field. -/
theorem C5_missing_action_witness :
    execute envAll oracleHappy "2026-10-12T00:00:00.000Z"
        (reqOf none (.str "203.0.113.7") none) =
      { calls := [], logs := [], status := 400
        body := { status := "error", message := some "Action is required" } } :=
  C5_missing_action envAll oracleHappy "2026-10-12T00:00:00.000Z"
    (reqOf none (.str "203.0.113.7") none) (Or.inl rfl)

/-- C2: for every ticketing-routed request (action in `rate_limit_ip`,
`add_waf_rule`, `block_endpoint`) with Jira configured, exactly one
ticket-creation call goes out, and its requested priority is `"High"` iff
the request's severity field is exactly `"high"`; for any other severity,
including the absent-severity default `"medium"`, it is `"Medium"`. -/
theorem C2_ticket_priority (env : Env) (o : Oracle) (now : String)
    (req : Request) (a : String)
    (ha : req.action = some a)
    (hmem : a = "rate_limit_ip" ∨ a = "add_waf_rule" ∨ a = "block_endpoint")
    (hb : strTruthy env.JIRA_BASE = true)
    (hm : strTruthy env.JIRA_MAIL = true)
    (hapi : strTruthy env.JIRA_API = true)
    (hpr : strTruthy env.JIRA_PROJECT = true) :
    (execute env o now req).calls =
      [Call.jira (jiraPayloadOf env a req.target (req.severity.getD "medium"))] ∧
    ((jiraPayloadOf env a req.target (req.severity.getD "medium")).priority = "High" ↔
      req.severity = some "high") ∧
    (req.severity ≠ some "high" →
      (jiraPayloadOf env a req.target (req.severity.getD "medium")).priority = "Medium") := by
  refine ⟨?_, ?_, ?_⟩
  · rw [execute_ticketing_eq env o now req a ha hmem]
    exact ticketingBranch_calls env o.jira a req.target _ hb hm hapi hpr
  · rcases hsev : req.severity with _ | s
    · simp [jiraPayloadOf]
    · by_cases hs : s = "high" <;> simp [jiraPayloadOf, hs]
  · intro hne
    rcases hsev : req.severity with _ | s
    · simp [jiraPayloadOf]
    · rw [hsev] at hne
      have hs : s ≠ "high" := fun h => hne (by rw [h])
      simp [jiraPayloadOf, hs]

/-- Witness for C2 at a concrete high-severity `add_waf_rule` request. -/
theorem C2_ticket_priority_witness :
    (execute envAll oracleHappy "2026-10-12T00:00:00.000Z"
        (reqOf (some "add_waf_rule") (.str "/login") (some "high"))).calls =
      [Call.jira (jiraPayloadOf envAll "add_waf_rule" (.str "/login") "high")] ∧
    ((jiraPayloadOf envAll "add_waf_rule" (.str "/login") "high").priority = "High" ↔
      (reqOf (some "add_waf_rule") (.str "/login") (some "high")).severity = some "high") ∧
    ((reqOf (some "add_waf_rule") (.str "/login") (some "high")).severity ≠ some "high" →
      (jiraPayloadOf envAll "add_waf_rule" (.str "/login") "high").priority = "Medium") :=
  C2_ticket_priority envAll oracleHappy "2026-10-12T00:00:00.000Z"
    (reqOf (some "add_waf_rule") (.str "/login") (some "high")) "add_waf_rule"
    rfl (Or.inr (Or.inl rfl)) rfl rfl rfl rfl

/-- C6 counterexample: at a concrete `rate_limit_ip` request the ticket
summary is `"[ThreatPilot] RATE LIMIT IP"`, which is not the bare
underscores-to-spaces upper-casing of the action name: the claim misses the
fixed `"[ThreatPilot] "` prefix. -/
theorem C6_summary_counterexample :
    (execute envAll oracleHappy "2026-10-12T00:00:00.000Z"
        (reqOf (some "rate_limit_ip") (.str "203.0.113.7") none)).calls =
      [Call.jira (jiraPayloadOf envAll "rate_limit_ip" (.str "203.0.113.7") "medium")] ∧
    (jiraPayloadOf envAll "rate_limit_ip" (.str "203.0.113.7") "medium").summary ≠
      jsToUpper (underscoresToSpaces "rate_limit_ip") ∧
    (jiraPayloadOf envAll "rate_limit_ip" (.str "203.0.113.7") "medium").summary =
      "[ThreatPilot] RATE LIMIT IP" := by
  refine ⟨rfl, ?_, rfl⟩
  decide

/-- C6 (amended): for every ticketing-routed request with Jira configured,
the single outbound ticket call's summary is `"[ThreatPilot] "` followed by
the action name with underscores replaced by spaces and upper-cased, and
whenever `JSON.stringify(target, null, 2)` is defined, that rendering
appears verbatim inside the ticket description. -/
theorem C6_ticket_summary_description (env : Env) (o : Oracle) (now : String)
    (req : Request) (a : String)
    (ha : req.action = some a)
    (hmem : a = "rate_limit_ip" ∨ a = "add_waf_rule" ∨ a = "block_endpoint")
    (hb : strTruthy env.JIRA_BASE = true)
    (hm : strTruthy env.JIRA_MAIL = true)
    (hapi : strTruthy env.JIRA_API = true)
    (hpr : strTruthy env.JIRA_PROJECT = true) :
    (execute env o now req).calls =
      [Call.jira (jiraPayloadOf env a req.target (req.severity.getD "medium"))] ∧
    (jiraPayloadOf env a req.target (req.severity.getD "medium")).summary =
      "[ThreatPilot] " ++ jsToUpper (underscoresToSpaces a) ∧
    ∀ s, Js.stringify2 req.target = some s →
      ∃ pre post,
        (jiraPayloadOf env a req.target (req.severity.getD "medium")).description =
          pre ++ s ++ post := by
  refine ⟨?_, rfl, ?_⟩
  · rw [execute_ticketing_eq env o now req a ha hmem]
    exact ticketingBranch_calls env o.jira a req.target _ hb hm hapi hpr
  · intro s hs
    refine ⟨"Action: " ++ a ++ "\nTarget: ",
      "\nSeverity: " ++ req.severity.getD "medium", ?_⟩
    have hd : (jiraPayloadOf env a req.target (req.severity.getD "medium")).description =
        ("Action: " ++ a ++ "\nTarget: ") ++
          templateOpt req.target.stringify2 ++
          ("\nSeverity: " ++ req.severity.getD "medium") := rfl
    rw [hd, hs]
    rfl

/-- Witness for the amended C6 at a concrete request, with the JSON-rendered
target instantiated. -/
theorem C6_ticket_summary_description_witness :
    (execute envAll oracleHappy "2026-10-12T00:00:00.000Z"
        (reqOf (some "block_endpoint") (.str "/admin") none)).calls =
      [Call.jira (jiraPayloadOf envAll "block_endpoint" (.str "/admin") "medium")] ∧
    (jiraPayloadOf envAll "block_endpoint" (.str "/admin") "medium").summary =
      "[ThreatPilot] " ++ jsToUpper (underscoresToSpaces "block_endpoint") ∧
    ∃ pre post,
      (jiraPayloadOf envAll "block_endpoint" (.str "/admin") "medium").description =
        pre ++ "\"/admin\"" ++ post := by
  have h := C6_ticket_summary_description envAll oracleHappy
    "2026-10-12T00:00:00.000Z" (reqOf (some "block_endpoint") (.str "/admin") none)
    "block_endpoint" rfl (Or.inr (Or.inr rfl)) rfl rfl rfl rfl
  exact ⟨h.1, h.2.1, h.2.2 "\"/admin\"" rfl⟩

/-- The remote body used to refute C3 as stated: `success` false with a
present but empty first error message. -/
def cfRespEmptyMsg : CfResponse :=
  { success := false, errors := some [{ message := some "" }], result := none }

/-- A remote world whose firewall rejects every call with `cfRespEmptyMsg`. -/
def oracleEmptyMsg : Oracle :=
  { oracleHappy with cf := fun _ => .ok cfRespEmptyMsg }

/-- C3 counterexample: the remote response carries a first error message
(the empty string), yet the surfaced error is the generic
`"Cloudflare block failed"`, because `||` in the source treats the falsy
empty string as absent.  So the message is not always the first error
message when one is present. -/
theorem C3_empty_message_counterexample :
    (cfRespEmptyMsg.errors.bind List.head?).bind CfError.message = some "" ∧
    (execute envAll oracleEmptyMsg "2026-10-12T00:00:00.000Z"
        (reqOf (some "block_ip") (.str "203.0.113.7") none)).body.message =
      some "Cloudflare block failed" ∧
    (execute envAll oracleEmptyMsg "2026-10-12T00:00:00.000Z"
        (reqOf (some "block_ip") (.str "203.0.113.7") none)).body.message ≠
      some "" := by
  refine ⟨rfl, rfl, ?_⟩
  decide

/-- C3 (amended): for every `block_ip` request (firewall configured) whose
remote body has `success` false — regardless of any transport-level status,
which the source never reads — the handler throws `cfErrMsg`: the first
error message when present and non-empty, else the generic message; the
rejection is logged (the body, then the router's catch log) and the router
answers 500 with status `"error"`. -/
theorem C3_remote_rejected (env : Env) (o : Oracle) (now : String)
    (req : Request) (resp : CfResponse)
    (hz : strTruthy env.CF_ZONE_ID = true)
    (htk : strTruthy env.CF_API_TOKEN = true)
    (ha : req.action = some "block_ip")
    (hcf : o.cf (cfBody req.target) = .ok resp)
    (hs : resp.success = false) :
    (execute env o now req).status = 500 ∧
    (execute env o now req).body.status = "error" ∧
    (execute env o now req).body.message = some (cfErrMsg resp) ∧
    (∀ m, (resp.errors.bind List.head?).bind CfError.message = some m →
      m ≠ "" → cfErrMsg resp = m) ∧
    (((resp.errors.bind List.head?).bind CfError.message = none ∨
      (resp.errors.bind List.head?).bind CfError.message = some "") →
      cfErrMsg resp = "Cloudflare block failed") ∧
    (execute env o now req).logs =
      [LogEvent.cfError resp, LogEvent.remediationError (cfErrMsg resp)] := by
  rw [execute_block_ip_eq env o now req ha,
    blockIpBranch_rejected env o.cf now req.target resp hz htk hcf hs]
  refine ⟨rfl, rfl, rfl, ?_, ?_, rfl⟩
  · intro m hm hne
    simp [cfErrMsg, hm, hne]
  · rintro (h | h) <;> simp [cfErrMsg, h]

/-- The remote body used in the C3 witness: a rejection with a non-empty
first error message. -/
def cfRespRejected : CfResponse :=
  { success := false
    errors := some [{ message := some "firewall access rule quota exceeded" }]
    result := none }

/-- A remote world whose firewall rejects every call with `cfRespRejected`. -/
def oracleRejected : Oracle :=
  { oracleHappy with cf := fun _ => .ok cfRespRejected }

/-- Witness for the amended C3 at a concrete rejected call. -/
theorem C3_remote_rejected_witness :
    (execute envAll oracleRejected "2026-10-12T00:00:00.000Z"
        (reqOf (some "block_ip") (.str "203.0.113.7") none)).status = 500 ∧
    (execute envAll oracleRejected "2026-10-12T00:00:00.000Z"
        (reqOf (some "block_ip") (.str "203.0.113.7") none)).body.status = "error" ∧
    (execute envAll oracleRejected "2026-10-12T00:00:00.000Z"
        (reqOf (some "block_ip") (.str "203.0.113.7") none)).body.message =
      some "firewall access rule quota exceeded" ∧
    (execute envAll oracleRejected "2026-10-12T00:00:00.000Z"
        (reqOf (some "block_ip") (.str "203.0.113.7") none)).logs =
      [LogEvent.cfError cfRespRejected,
       LogEvent.remediationError "firewall access rule quota exceeded"] := by
  have h := C3_remote_rejected envAll oracleRejected "2026-10-12T00:00:00.000Z"
    (reqOf (some "block_ip") (.str "203.0.113.7") none) cfRespRejected
    rfl rfl rfl rfl rfl
  exact ⟨h.1, h.2.1, h.2.2.1, h.2.2.2.2.2⟩

/-- Whether `t` occurs as a contiguous substring of `s`. -/
def containsSub (s t : String) : Bool :=
  (List.range (s.data.length + 1)).any fun i =>
    (s.data.drop i).take t.data.length == t.data

/-- The alert request of C7: the routing action is `"alert_sre"` and the
payload carries the claimed threat, severity and target. -/
def reqAlert : Request :=
  { action := some "alert_sre"
    target := .str "api.example.com"
    severity := some "high"
    threat := some "SQLi"
    extra := [] }

/-- C7 counterexample: `alertSRESlack` receives the whole request body, so
the rendered "Recommended Action" is the routing action.  For the claimed
payload the second section text never contains `"block"`: with
`action: "alert_sre"` it reads `"... alert_sre"`, and a body with
`action: "block"` instead is not routed to the notification handler at all
(400, no outbound call). -/
theorem C7_recommended_action_counterexample :
    (execute envAll oracleHappy "2026-10-12T00:00:00.000Z" reqAlert).calls =
      [Call.slack (buildSlackMessage reqAlert "2026-10-12T00:00:00.000Z")] ∧
    containsSub
      (buildSlackMessage reqAlert "2026-10-12T00:00:00.000Z").sectionTwoText
      "block" = false ∧
    (execute envAll oracleHappy "2026-10-12T00:00:00.000Z"
        { reqAlert with action := some "block" }).calls = [] ∧
    (execute envAll oracleHappy "2026-10-12T00:00:00.000Z"
        { reqAlert with action := some "block" }).status = 400 := by
  refine ⟨rfl, ?_, rfl, rfl⟩
  decide

/-- C7 (amended): for the `alert_sre` request with payload
`{threat: "SQLi", severity: "high", target: "api.example.com"}`, the
outbound message's first section text contains `"SQLi"` and `"high"`, and
its second section text contains `"api.example.com"` and `"alert_sre"`
(the request's own action, which is what the handler renders as the
recommended action). -/
theorem C7_alert_sre_message :
    (execute envAll oracleHappy "2026-10-12T00:00:00.000Z" reqAlert).calls =
      [Call.slack (buildSlackMessage reqAlert "2026-10-12T00:00:00.000Z")] ∧
    containsSub
      (buildSlackMessage reqAlert "2026-10-12T00:00:00.000Z").sectionOneText
      "SQLi" = true ∧
    containsSub
      (buildSlackMessage reqAlert "2026-10-12T00:00:00.000Z").sectionOneText
      "high" = true ∧
    containsSub
      (buildSlackMessage reqAlert "2026-10-12T00:00:00.000Z").sectionTwoText
      "api.example.com" = true ∧
    containsSub
      (buildSlackMessage reqAlert "2026-10-12T00:00:00.000Z").sectionTwoText
      "alert_sre" = true := by
  refine ⟨rfl, ?_, ?_, ?_, ?_⟩ <;> decide

/-- C8: for every `alert_sre` request with the webhook configured, whenever
the webhook transport call returns at all — whatever the response status,
`ok` flag or body, none of which the handler reads — the router answers 200
with bare success (no handle echoed: `cloudflare_rule_id` and `jira_ticket`
absent). -/
theorem C8_alert_ignores_response (env : Env) (o : Oracle) (now : String)
    (req : Request) (r : SlackResp)
    (ha : req.action = some "alert_sre")
    (hw : strTruthy env.SLACK_WEBHOOK_URL = true)
    (hs : o.slack (buildSlackMessage req now) = .ok r) :
    execute env o now req =
      { calls := [Call.slack (buildSlackMessage req now)], logs := []
        status := 200
        body :=
          { status := "success"
            action_taken := some "alert_sre"
            method := some "slack_notification"
            message := some "SRE alerted via Slack"
            executed_at := some now } } := by
  rw [execute_alert_eq env o now req ha]
  exact alertBranch_ok env o.slack now req r hw hs

/-- A remote world whose webhook answers with a failing status and body;
the handler must not care. -/
def oracleSlackSadBody : Oracle :=
  { oracleHappy with
    slack := fun _ =>
      .ok { status := 500, ok := false, body := .str "invalid_payload" } }

/-- Witness for C8: even a 500 `invalid_payload` webhook response yields a
200 success, since the handler never inspects it. -/
theorem C8_alert_ignores_response_witness :
    execute envAll oracleSlackSadBody "2026-10-12T00:00:00.000Z" reqAlert =
      { calls := [Call.slack (buildSlackMessage reqAlert "2026-10-12T00:00:00.000Z")]
        logs := []
        status := 200
        body :=
          { status := "success"
            action_taken := some "alert_sre"
            method := some "slack_notification"
            message := some "SRE alerted via Slack"
            executed_at := some "2026-10-12T00:00:00.000Z" } } :=
  C8_alert_ignores_response envAll oracleSlackSadBody "2026-10-12T00:00:00.000Z"
    reqAlert { status := 500, ok := false, body := .str "invalid_payload" }
    rfl rfl rfl

/-- A remote world whose firewall accepts but returns a rule object without
an `id`. -/
def oracleRuleNoId : Oracle :=
  { oracleHappy with
    cf := fun _ => .ok { success := true, errors := none
                         result := some { id := none } } }

/-- C9 counterexample: when the remote body has `success` true and a
`result` object that merely lacks an `id`, `rule.id` is `undefined` but does
not throw: the response is a 200 success with `cloudflare_rule_id` absent —
not the claimed 500. -/
theorem C9_missing_id_counterexample :
    (execute envAll oracleRuleNoId "2026-10-12T00:00:00.000Z"
        (reqOf (some "block_ip") (.str "198.51.100.9") none)).status = 200 ∧
    (execute envAll oracleRuleNoId "2026-10-12T00:00:00.000Z"
        (reqOf (some "block_ip") (.str "198.51.100.9") none)).body.status =
      "success" ∧
    (execute envAll oracleRuleNoId "2026-10-12T00:00:00.000Z"
        (reqOf (some "block_ip") (.str "198.51.100.9") none)).body.cloudflare_rule_id =
      none :=
  ⟨rfl, rfl, rfl⟩

/-- C9 (amended): for every `block_ip` request (firewall configured) whose
remote body has `success` true, if the `result` field is absent the
dereference `rule.id` throws and the response is a 500 error; but if
`result` is present and merely lacks an `id`, the response is a 200 success
with `cloudflare_rule_id` absent. -/
theorem C9_rule_id_dereference (env : Env) (o : Oracle) (now : String)
    (req : Request) (resp : CfResponse)
    (hz : strTruthy env.CF_ZONE_ID = true)
    (htk : strTruthy env.CF_API_TOKEN = true)
    (ha : req.action = some "block_ip")
    (hcf : o.cf (cfBody req.target) = .ok resp)
    (hs : resp.success = true) :
    (resp.result = none →
      (execute env o now req).status = 500 ∧
      (execute env o now req).body.status = "error" ∧
      (execute env o now req).body.message = some undefinedIdMsg) ∧
    (∀ rule, resp.result = some rule → rule.id = none →
      (execute env o now req).status = 200 ∧
      (execute env o now req).body.status = "success" ∧
      (execute env o now req).body.cloudflare_rule_id = none) := by
  constructor
  · intro hr
    rw [execute_block_ip_eq env o now req ha,
      blockIpBranch_no_result env o.cf now req.target resp hz htk hcf hs hr]
    exact ⟨rfl, rfl, rfl⟩
  · intro rule hr hid
    rw [execute_block_ip_eq env o now req ha,
      blockIpBranch_success env o.cf now req.target resp rule hz htk hcf hs hr]
    exact ⟨rfl, rfl, hid⟩

/-- A remote world whose firewall accepts but returns no `result` object. -/
def oracleNoResult : Oracle :=
  { oracleHappy with
    cf := fun _ => .ok { success := true, errors := none, result := none } }

/-- Witness for the amended C9: an accepted call with no `result` object
yields the 500 thrown by the `id` dereference. -/
theorem C9_rule_id_dereference_witness :
    (execute envAll oracleNoResult "2026-10-12T00:00:00.000Z"
        (reqOf (some "block_ip") (.str "198.51.100.9") none)).status = 500 ∧
    (execute envAll oracleNoResult "2026-10-12T00:00:00.000Z"
        (reqOf (some "block_ip") (.str "198.51.100.9") none)).body.status =
      "error" ∧
    (execute envAll oracleNoResult "2026-10-12T00:00:00.000Z"
        (reqOf (some "block_ip") (.str "198.51.100.9") none)).body.message =
      some undefinedIdMsg :=
  (C9_rule_id_dereference envAll oracleNoResult "2026-10-12T00:00:00.000Z"
    (reqOf (some "block_ip") (.str "198.51.100.9") none)
    { success := true, errors := none, result := none }
    rfl rfl rfl rfl rfl).1 rfl

/-- Everything the firewall branch produces, apart from the `executed_at`
timestamp, is independent of the clock reading. -/
theorem blockIpBranch_now_invariant (env : Env)
    (cf : CfBody → Except String CfResponse) (n1 n2 : String) (t : Js) :
    (blockIpBranch env cf n1 t).calls = (blockIpBranch env cf n2 t).calls ∧
    (blockIpBranch env cf n1 t).logs = (blockIpBranch env cf n2 t).logs ∧
    (blockIpBranch env cf n1 t).status = (blockIpBranch env cf n2 t).status ∧
    (blockIpBranch env cf n1 t).body.status = (blockIpBranch env cf n2 t).body.status ∧
    (blockIpBranch env cf n1 t).body.message = (blockIpBranch env cf n2 t).body.message ∧
    (blockIpBranch env cf n1 t).body.action_taken = (blockIpBranch env cf n2 t).body.action_taken ∧
    (blockIpBranch env cf n1 t).body.action = (blockIpBranch env cf n2 t).body.action ∧
    (blockIpBranch env cf n1 t).body.target = (blockIpBranch env cf n2 t).body.target ∧
    (blockIpBranch env cf n1 t).body.method = (blockIpBranch env cf n2 t).body.method ∧
    (blockIpBranch env cf n1 t).body.cloudflare_rule_id = (blockIpBranch env cf n2 t).body.cloudflare_rule_id ∧
    (blockIpBranch env cf n1 t).body.jira_ticket = (blockIpBranch env cf n2 t).body.jira_ticket := by
  by_cases hcfg : (!(strTruthy env.CF_ZONE_ID) || !(strTruthy env.CF_API_TOKEN)) = true
  · simp [blockIpBranch, blockIPCloudflare, hcfg, errorOutcome]
  · rcases hcf : cf (cfBody t) with e | data
    · simp [blockIpBranch, blockIPCloudflare, hcfg, hcf, errorOutcome]
    · cases hs : data.success
      · simp [blockIpBranch, blockIPCloudflare, hcfg, hcf, hs, errorOutcome]
      · rcases hr : data.result with _ | rule
        · simp [blockIpBranch, blockIPCloudflare, hcfg, hcf, hs, hr, errorOutcome]
        · simp [blockIpBranch, blockIPCloudflare, hcfg, hcf, hs, hr, errorOutcome]

/-- C10: any two `block_ip` requests with the same target, run in the same
environment against the same remote behaviour, make identical outbound calls
(the firewall body depends only on the target), produce identical logs and
HTTP status, and their response bodies agree on every field except
`executed_at` — the severity and any extra body fields never reach the
firewall path. -/
theorem C10_block_ip_extra_fields_irrelevant (env : Env) (o : Oracle)
    (now1 now2 : String) (r1 r2 : Request)
    (h1 : r1.action = some "block_ip") (h2 : r2.action = some "block_ip")
    (ht : r1.target = r2.target) :
    (execute env o now1 r1).calls = (execute env o now2 r2).calls ∧
    (execute env o now1 r1).logs = (execute env o now2 r2).logs ∧
    (execute env o now1 r1).status = (execute env o now2 r2).status ∧
    (execute env o now1 r1).body.status = (execute env o now2 r2).body.status ∧
    (execute env o now1 r1).body.message = (execute env o now2 r2).body.message ∧
    (execute env o now1 r1).body.action_taken = (execute env o now2 r2).body.action_taken ∧
    (execute env o now1 r1).body.action = (execute env o now2 r2).body.action ∧
    (execute env o now1 r1).body.target = (execute env o now2 r2).body.target ∧
    (execute env o now1 r1).body.method = (execute env o now2 r2).body.method ∧
    (execute env o now1 r1).body.cloudflare_rule_id = (execute env o now2 r2).body.cloudflare_rule_id ∧
    (execute env o now1 r1).body.jira_ticket = (execute env o now2 r2).body.jira_ticket := by
  rw [execute_block_ip_eq env o now1 r1 h1, execute_block_ip_eq env o now2 r2 h2, ht]
  exact blockIpBranch_now_invariant env o.cf now1 now2 r2.target

/-- Witness for C10: two concrete `block_ip` requests that differ in
severity, threat, extra fields and clock reading. -/
theorem C10_block_ip_extra_fields_irrelevant_witness :
    (execute envAll oracleHappy "2026-10-12T00:00:00.000Z"
        { action := some "block_ip", target := .str "203.0.113.7"
          severity := some "high", threat := some "SQLi"
          extra := [("note", .str "urgent")] }).calls =
      (execute envAll oracleHappy "2026-10-12T00:00:01.000Z"
        (reqOf (some "block_ip") (.str "203.0.113.7") none)).calls ∧
    (execute envAll oracleHappy "2026-10-12T00:00:00.000Z"
        { action := some "block_ip", target := .str "203.0.113.7"
          severity := some "high", threat := some "SQLi"
          extra := [("note", .str "urgent")] }).body.cloudflare_rule_id =
      (execute envAll oracleHappy "2026-10-12T00:00:01.000Z"
        (reqOf (some "block_ip") (.str "203.0.113.7") none)).body.cloudflare_rule_id ∧
    (execute envAll oracleHappy "2026-10-12T00:00:00.000Z"
        { action := some "block_ip", target := .str "203.0.113.7"
          severity := some "high", threat := some "SQLi"
          extra := [("note", .str "urgent")] }).body.status =
      (execute envAll oracleHappy "2026-10-12T00:00:01.000Z"
        (reqOf (some "block_ip") (.str "203.0.113.7") none)).body.status := by
  have h := C10_block_ip_extra_fields_irrelevant envAll oracleHappy
    "2026-10-12T00:00:00.000Z" "2026-10-12T00:00:01.000Z"
    { action := some "block_ip", target := .str "203.0.113.7"
      severity := some "high", threat := some "SQLi"
      extra := [("note", .str "urgent")] }
    (reqOf (some "block_ip") (.str "203.0.113.7") none)
    rfl rfl rfl
  exact ⟨h.1, h.2.2.2.2.2.2.2.2.2.1, h.2.2.2.1⟩

end Remediation
